import Mathlib

/-!
Verification development for the xhs-mcp repository.

This file gives a shallow embedding, in Lean, of the pure logic of the
publishing service (`src/core/publishing/publish.service.ts`), the download
service (`src/core/downloading/download.service.ts`), the tool handlers
(`src/server/handlers/tool.handlers.ts`) and the CLI delete action, and proves
properties of that logic.  Browser, file-system and network effects are
represented by explicit oracles (records of functions describing the outcome
of each external call); the decision logic around them is translated directly
from the TypeScript source.
-/

namespace XhsMcp

/-- JS `String.prototype.includes`: substring containment, on character lists. -/
def includes (s pat : String) : Bool :=
  decide (List.IsInfix pat.data s.data)

/-- JS `String.prototype.trim`: drop whitespace from both ends. -/
def jsTrim (s : String) : String :=
  String.mk (((s.data.dropWhile Char.isWhitespace).reverse.dropWhile Char.isWhitespace).reverse)

/-- The `PublishError` class of `src/shared/errors.ts` (only the message is
relevant to the embedded logic; error code and context are fixed). -/
structure PublishErrorE where
  msg : String
deriving DecidableEq, Repr

/-! ## Completion detection (publish.service.ts)

A poll tick observes the page through a fixed set of selector/pattern probes.
One tick is modelled as a record of the outcomes of those probes; the decision
logic applied to a tick is translated from the loop bodies of
`waitForPublishCompletion` (image publish) and the condition closure of
`waitForVideoPublishCompletion` (video publish). -/

/-- Page state observed by one poll tick of `waitForPublishCompletion`
(image publish loop, publish.service.ts lines 1091-1173): presence of a
success-indicator element, presence of an error-indicator element together
with its text, presence of a publish-page indicator element, and the text of
the first toast element found (`none` when no toast element is present or its
text is empty, both falsy in the source). -/
structure PublishPageTick where
  successIndicator : Bool
  errorIndicator : Bool
  errorText : String
  stillOnPublishPage : Bool
  toastText : Option String
deriving DecidableEq, Repr

/-- What one body iteration of a completion poll loop decides. -/
inductive TickResult where
  | success : TickResult
  | failure : String → TickResult
  | pending : TickResult
deriving DecidableEq, Repr

/-- One body iteration of the `waitForPublishCompletion` loop, in source
order: success indicators, then error indicators (throwing `PublishError`),
then the publish-page-presence heuristic (leaving the page is success), then
toast text matched against success patterns before error patterns, otherwise
keep polling. -/
def imagePublishTick (t : PublishPageTick) : TickResult :=
  if t.successIndicator then .success
  else if t.errorIndicator then
    .failure ("Publish failed with error: " ++ t.errorText)
  else if !t.stillOnPublishPage then .success
  else
    match t.toastText with
    | some txt =>
      if includes txt "成功" || includes txt "success" then .success
      else if includes txt "失败" || includes txt "error" || includes txt "错误" then
        .failure ("Publish failed: " ++ txt)
      else .pending
    | none => .pending

/-- Page state observed by one tick of the `waitForVideoPublishCompletion`
condition closure (publish.service.ts lines 1347-1431): the five probes it
performs, in the order success pattern / error pattern / publish-page
presence / processing pattern / toast success then toast error. -/
structure VideoPublishTick where
  successIndicator : Bool
  errorIndicator : Bool
  errorText : String
  stillOnPublishPage : Bool
  processingIndicator : Bool
  toastSuccess : Bool
  toastError : Bool
  toastErrorText : String
deriving DecidableEq, Repr

/-- The condition closure passed by `waitForVideoPublishCompletion` to
`waitForCondition`: `.ok true` means done, `.ok false` means keep polling,
`.error` models the thrown `PublishError`.  The processing probe only feeds a
log line and the (pre-evaluated) poll interval, so it does not affect the
returned value. -/
def videoPublishTickCond (t : VideoPublishTick) : Except PublishErrorE Bool :=
  if t.successIndicator then .ok true
  else if t.errorIndicator then
    .error ⟨"Video publish failed with error: " ++ t.errorText⟩
  else if !t.stillOnPublishPage then .ok true
  else if t.toastSuccess then .ok true
  else if t.toastError then
    .error ⟨"Video publish failed: " ++ t.toastErrorText⟩
  else .ok false

/-- Poll loop of `waitForCondition` (publish.service.ts lines 112-128),
iteration `k` happening at elapsed time `k * checkInterval`; the loop body
runs while the elapsed time is below `timeout` and the loop throws
`PublishError errorMessage` once the bound is reached.  The fuel argument is
`timeout + 1`, enough for every reachable iteration (for `checkInterval = 0`
the source busy-polls until the wall clock passes the bound, which the fuel
exhaustion branch reproduces with the same error). -/
def waitForConditionGo (cond : Nat → Except PublishErrorE Bool)
    (timeout checkInterval : Nat) (errorMessage : String) :
    Nat → Nat → Except PublishErrorE Unit
  | 0, _ => .error ⟨errorMessage⟩
  | fuel + 1, k =>
    if k * checkInterval < timeout then
      match cond k with
      | .error e => .error e
      | .ok true => .ok ()
      | .ok false => waitForConditionGo cond timeout checkInterval errorMessage fuel (k + 1)
    else .error ⟨errorMessage⟩

/-- `waitForCondition(condition, timeout, checkInterval, errorMessage)`. -/
def waitForCondition (cond : Nat → Except PublishErrorE Bool)
    (timeout checkInterval : Nat) (errorMessage : String) : Except PublishErrorE Unit :=
  waitForConditionGo cond timeout checkInterval errorMessage (timeout + 1) 0

theorem waitForConditionGo_succ (cond : Nat → Except PublishErrorE Bool)
    (timeout checkInterval : Nat) (errorMessage : String) (fuel k : Nat) :
    waitForConditionGo cond timeout checkInterval errorMessage (fuel + 1) k =
      if k * checkInterval < timeout then
        match cond k with
        | .error e => .error e
        | .ok true => .ok ()
        | .ok false => waitForConditionGo cond timeout checkInterval errorMessage fuel (k + 1)
      else .error ⟨errorMessage⟩ := rfl

theorem waitForConditionGo_never (cond : Nat → Except PublishErrorE Bool)
    (timeout checkInterval : Nat) (errorMessage : String)
    (h : ∀ k, cond k = .ok false) :
    ∀ fuel k, waitForConditionGo cond timeout checkInterval errorMessage fuel k =
      .error ⟨errorMessage⟩ := by
  intro fuel
  induction fuel with
  | zero => intro k; rfl
  | succ n ih =>
    intro k
    rw [waitForConditionGo_succ]
    by_cases hk : k * checkInterval < timeout
    · rw [if_pos hk, h k]
      exact ih (k + 1)
    · rw [if_neg hk]

/-- A condition that never becomes true (and never throws) always drives
`waitForCondition` into the timeout error. -/
theorem waitForCondition_never (cond : Nat → Except PublishErrorE Bool)
    (timeout checkInterval : Nat) (errorMessage : String)
    (h : ∀ k, cond k = .ok false) :
    waitForCondition cond timeout checkInterval errorMessage = .error ⟨errorMessage⟩ :=
  waitForConditionGo_never cond timeout checkInterval errorMessage h (timeout + 1) 0

/-- Timeout message of the image-publish completion loop. -/
def publishCompletionTimeoutMsg : String :=
  "Publish completion timeout - could not determine result"

/-- The image-publish completion loop `waitForPublishCompletion`: hand-rolled
in the source with a 60 s bound and 1 s poll interval, same control structure
as `waitForCondition` applied to `imagePublishTick`. -/
def waitForPublishCompletion (trace : Nat → PublishPageTick) : Except PublishErrorE Unit :=
  waitForCondition
    (fun k =>
      match imagePublishTick (trace k) with
      | .success => .ok true
      | .failure m => .error ⟨m⟩
      | .pending => .ok false)
    60000 1000 publishCompletionTimeoutMsg

/-- Timeout message of the video-publish completion wait. -/
def videoPublishCompletionTimeoutMsg : String :=
  "Video publish completion timeout - could not determine result after 5 minutes"

/-- `waitForVideoPublishCompletion`: `waitForCondition` over the video tick
condition, 300 s bound.  The interval expression `isProcessing ? 5000 : 2000`
is evaluated once at the call with `isProcessing = false`, hence 2000. -/
def waitForVideoPublishCompletion (trace : Nat → VideoPublishTick) : Except PublishErrorE Unit :=
  waitForCondition (fun k => videoPublishTickCond (trace k)) 300000 2000
    videoPublishCompletionTimeoutMsg

/-- Page state observed by a tick of the `waitForVideoProcessing` condition. -/
structure VideoProcessingTick where
  completionIndicator : Bool
  processingIndicator : Bool
deriving DecidableEq, Repr

/-- Condition closure of `waitForVideoProcessing`: complete if a completion
indicator matches; keep waiting while a processing indicator matches;
otherwise assume processing is done. -/
def videoProcessingTickCond (t : VideoProcessingTick) : Except PublishErrorE Bool :=
  if t.completionIndicator then .ok true
  else if t.processingIndicator then .ok false
  else .ok true

/-- `waitForVideoProcessing` (publish.service.ts lines 1734-1775): runs
`waitForCondition` with a 120 s bound and 3 s interval, but wraps it in
try/catch — a timeout error is logged as a warning and swallowed, and the
method returns normally. -/
def waitForVideoProcessing (trace : Nat → VideoProcessingTick) : Except PublishErrorE Unit :=
  match waitForCondition (fun k => videoProcessingTickCond (trace k)) 120000 3000
      "Video processing timeout" with
  | .ok () => .ok ()
  | .error _ => .ok ()

/-- C1: in both completion loops, explicit success and error indicators are
evaluated before the publish-page-presence heuristic and the processing
check: a tick with a success indicator decides success on that tick (never
failure, never pending), and a tick with an error indicator and no success
indicator raises the captured error on that tick; with a constant such trace
the loops return immediately with the corresponding outcome. -/
theorem claim_C1 : ∀ (t : PublishPageTick) (v : VideoPublishTick),
    (t.successIndicator = true → imagePublishTick t = .success) ∧
    (t.successIndicator = false → t.errorIndicator = true →
      imagePublishTick t = .failure ("Publish failed with error: " ++ t.errorText)) ∧
    (v.successIndicator = true → videoPublishTickCond v = .ok true) ∧
    (v.successIndicator = false → v.errorIndicator = true →
      videoPublishTickCond v = .error ⟨"Video publish failed with error: " ++ v.errorText⟩) ∧
    (t.successIndicator = true → waitForPublishCompletion (fun _ => t) = .ok ()) ∧
    (v.successIndicator = true → waitForVideoPublishCompletion (fun _ => v) = .ok ()) := by
  intro t v
  refine ⟨?_, ?_, ?_, ?_, ?_, ?_⟩
  · intro h; simp [imagePublishTick, h]
  · intro h1 h2; simp [imagePublishTick, h1, h2]
  · intro h; simp [videoPublishTickCond, h]
  · intro h1 h2; simp [videoPublishTickCond, h1, h2]
  · intro h
    rw [waitForPublishCompletion, waitForCondition, waitForConditionGo_succ]
    simp [imagePublishTick, h]
  · intro h
    rw [waitForVideoPublishCompletion, waitForCondition, waitForConditionGo_succ]
    simp [videoPublishTickCond, h]

theorem claim_C1_witness :
    (true = true ∧
      imagePublishTick ⟨true, false, "", true, none⟩ = .success) ∧
    (false = false ∧ true = true ∧
      videoPublishTickCond ⟨false, true, "boom", true, false, false, false, ""⟩ =
        .error ⟨"Video publish failed with error: boom"⟩) :=
  ⟨⟨rfl, (claim_C1 ⟨true, false, "", true, none⟩
      ⟨false, true, "boom", true, false, false, false, ""⟩).1 rfl⟩,
   rfl, rfl,
   (claim_C1 ⟨true, false, "", true, none⟩
      ⟨false, true, "boom", true, false, false, false, ""⟩).2.2.2.1 rfl rfl⟩

/-- C2 (amended): every completion wait is bounded and a condition that never
becomes true drives it to the bound — the generic helper and the 60 s image
loop and the 300 s video-completion loop then raise the `PublishError` whose
message states the timeout, but `waitForVideoProcessing` (120 s bound)
catches the timeout error of its inner wait and returns normally instead of
raising it. -/
theorem claim_C2 :
    (∀ (cond : Nat → Except PublishErrorE Bool) (timeout checkInterval : Nat)
        (errorMessage : String), (∀ k, cond k = .ok false) →
      waitForCondition cond timeout checkInterval errorMessage = .error ⟨errorMessage⟩) ∧
    (∀ trace : Nat → PublishPageTick, (∀ k, imagePublishTick (trace k) = .pending) →
      waitForPublishCompletion trace = .error ⟨publishCompletionTimeoutMsg⟩) ∧
    (∀ trace : Nat → VideoPublishTick, (∀ k, videoPublishTickCond (trace k) = .ok false) →
      waitForVideoPublishCompletion trace = .error ⟨videoPublishCompletionTimeoutMsg⟩) ∧
    (∀ trace : Nat → VideoProcessingTick, (∀ k, videoProcessingTickCond (trace k) = .ok false) →
      waitForVideoProcessing trace = .ok ()) := by
  refine ⟨?_, ?_, ?_, ?_⟩
  · intro cond timeout checkInterval errorMessage h
    exact waitForCondition_never cond timeout checkInterval errorMessage h
  · intro trace h
    refine waitForCondition_never _ _ _ _ ?_
    intro k; rw [h k]
  · intro trace h
    exact waitForCondition_never _ _ _ _ h
  · intro trace h
    rw [waitForVideoProcessing, waitForCondition_never _ _ _ _ h]

theorem claim_C2_witness :
    ((fun _ : Nat => (Except.ok false : Except PublishErrorE Bool)) 0 = .ok false) ∧
    waitForCondition (fun _ => .ok false) 500 100 "Condition timeout" =
      .error ⟨"Condition timeout"⟩ :=
  ⟨rfl, claim_C2.1 (fun _ => .ok false) 500 100 "Condition timeout" (fun _ => rfl)⟩

/-- C2 counterexample: a video-processing trace that forever shows a
processing indicator and never a completion indicator makes every tick
non-terminal, yet `waitForVideoProcessing` returns success instead of raising
the completion-timeout error (the inner timeout is caught and swallowed). -/
theorem claim_C2_counterexample :
    videoProcessingTickCond ⟨false, true⟩ = .ok false ∧
    waitForVideoProcessing (fun _ => ⟨false, true⟩) = .ok () := by
  constructor
  · rfl
  · rw [waitForVideoProcessing,
      waitForCondition_never (fun _ => videoProcessingTickCond ⟨false, true⟩) 120000 3000
        "Video processing timeout" (fun _ => rfl)]

/-! ## Download service (download.service.ts) -/

/-- A note entry passed to `batchDownloadNotes` (noteId, title, url). -/
structure BatchNote where
  noteId : String
  title : String
  url : String
deriving DecidableEq, Repr

/-- The `BatchDownloadResult` record of download.service.ts; an error entry
is (noteId, title, error message). -/
structure BatchDownloadResult where
  success : Bool
  totalNotes : Nat
  downloadedCount : Nat
  failedCount : Nat
  files : List String
  errors : List (String × String × String)
deriving DecidableEq, Repr

/-- One iteration of the `batchDownloadNotes` loop: `dl` is the outcome of
`downloadNote` for the note (`.ok` with the files it reports, `.error` with
the caught error message).  Progress callback, logging and the inter-download
delay have no effect on the result record. -/
def batchStep (dl : BatchNote → Except String (List String))
    (acc : BatchDownloadResult) (note : BatchNote) : BatchDownloadResult :=
  match dl note with
  | .ok fs =>
    { acc with files := acc.files ++ fs, downloadedCount := acc.downloadedCount + 1 }
  | .error msg =>
    { acc with failedCount := acc.failedCount + 1,
               errors := acc.errors ++ [(note.noteId, note.title, msg)] }

/-- `batchDownloadNotes(notes, options)` (download.service.ts lines 261-324):
applies the limit, folds the per-note loop over the initial result record,
then downgrades `success` to `downloadedCount > 0` when any download failed. -/
def batchDownloadNotes (notes : List BatchNote) (limit : Nat)
    (dl : BatchNote → Except String (List String)) : BatchDownloadResult :=
  let notesToDownload := if limit > 0 then notes.take limit else notes
  let r := notesToDownload.foldl (batchStep dl)
    { success := true, totalNotes := notesToDownload.length, downloadedCount := 0,
      failedCount := 0, files := [], errors := [] }
  if r.failedCount > 0 then { r with success := decide (r.downloadedCount > 0) } else r

theorem batchStep_fields (dl : BatchNote → Except String (List String))
    (acc : BatchDownloadResult) (note : BatchNote) :
    (batchStep dl acc note).downloadedCount + (batchStep dl acc note).failedCount
        = acc.downloadedCount + acc.failedCount + 1 ∧
    (batchStep dl acc note).errors.length + acc.failedCount
        = (batchStep dl acc note).failedCount + acc.errors.length ∧
    (batchStep dl acc note).totalNotes = acc.totalNotes ∧
    (batchStep dl acc note).success = acc.success := by
  unfold batchStep
  cases dl note <;> simp <;> omega

theorem batch_foldl_fields (dl : BatchNote → Except String (List String)) :
    ∀ (l : List BatchNote) (acc : BatchDownloadResult),
      (l.foldl (batchStep dl) acc).downloadedCount + (l.foldl (batchStep dl) acc).failedCount
          = acc.downloadedCount + acc.failedCount + l.length ∧
      (l.foldl (batchStep dl) acc).errors.length + acc.failedCount
          = (l.foldl (batchStep dl) acc).failedCount + acc.errors.length ∧
      (l.foldl (batchStep dl) acc).totalNotes = acc.totalNotes ∧
      (l.foldl (batchStep dl) acc).success = acc.success := by
  intro l
  induction l with
  | nil =>
    intro acc
    simp only [List.foldl_nil, List.length_nil]
    exact ⟨by omega, by omega, by trivial, by trivial⟩
  | cons n l ih =>
    intro acc
    obtain ⟨h1, h2, h3, h4⟩ := batchStep_fields dl acc n
    obtain ⟨g1, g2, g3, g4⟩ := ih (batchStep dl acc n)
    simp only [List.foldl_cons, List.length_cons]
    exact ⟨by omega, by omega, by rw [g3, h3], by rw [g4, h4]⟩

/-- Field values of the final success adjustment of `batchDownloadNotes`. -/
theorem batchFinal_fields (r : BatchDownloadResult) :
    (if r.failedCount > 0 then { r with success := decide (r.downloadedCount > 0) } else r).totalNotes
        = r.totalNotes ∧
    (if r.failedCount > 0 then { r with success := decide (r.downloadedCount > 0) } else r).downloadedCount
        = r.downloadedCount ∧
    (if r.failedCount > 0 then { r with success := decide (r.downloadedCount > 0) } else r).failedCount
        = r.failedCount ∧
    (if r.failedCount > 0 then { r with success := decide (r.downloadedCount > 0) } else r).errors
        = r.errors ∧
    (if r.failedCount > 0 then { r with success := decide (r.downloadedCount > 0) } else r).success
        = (if r.failedCount > 0 then decide (r.downloadedCount > 0) else r.success) := by
  by_cases hf : r.failedCount > 0 <;> simp [hf]

/-- The fold invariant specialized to the initial result record. -/
theorem batch_foldl_init (dl : BatchNote → Except String (List String))
    (l : List BatchNote) (t : Nat) :
    (l.foldl (batchStep dl) ⟨true, t, 0, 0, [], []⟩).downloadedCount
        + (l.foldl (batchStep dl) ⟨true, t, 0, 0, [], []⟩).failedCount = l.length ∧
    (l.foldl (batchStep dl) ⟨true, t, 0, 0, [], []⟩).errors.length
        = (l.foldl (batchStep dl) ⟨true, t, 0, 0, [], []⟩).failedCount ∧
    (l.foldl (batchStep dl) ⟨true, t, 0, 0, [], []⟩).totalNotes = t ∧
    (l.foldl (batchStep dl) ⟨true, t, 0, 0, [], []⟩).success = true := by
  obtain ⟨h1, h2, h3, h4⟩ := batch_foldl_fields dl l ⟨true, t, 0, 0, [], []⟩
  have h1' : (l.foldl (batchStep dl) ⟨true, t, 0, 0, [], []⟩).downloadedCount
      + (l.foldl (batchStep dl) ⟨true, t, 0, 0, [], []⟩).failedCount = 0 + 0 + l.length := h1
  have h2' : (l.foldl (batchStep dl) ⟨true, t, 0, 0, [], []⟩).errors.length + 0
      = (l.foldl (batchStep dl) ⟨true, t, 0, 0, [], []⟩).failedCount + 0 := h2
  exact ⟨by omega, by omega, h3, h4⟩

/-- C3: for every batch (after the limit is applied) the result satisfies
`downloadedCount + failedCount = totalNotes = K`, `errors.length =
failedCount`, `success = (downloadedCount > 0)` whenever some download
failed, and `success = true` when none failed. -/
theorem claim_C3 (notes : List BatchNote) (limit : Nat)
    (dl : BatchNote → Except String (List String)) :
    (batchDownloadNotes notes limit dl).totalNotes
        = (if limit > 0 then notes.take limit else notes).length ∧
    (batchDownloadNotes notes limit dl).downloadedCount
        + (batchDownloadNotes notes limit dl).failedCount
        = (if limit > 0 then notes.take limit else notes).length ∧
    (batchDownloadNotes notes limit dl).errors.length
        = (batchDownloadNotes notes limit dl).failedCount ∧
    ((batchDownloadNotes notes limit dl).failedCount > 0 →
      (batchDownloadNotes notes limit dl).success
        = decide ((batchDownloadNotes notes limit dl).downloadedCount > 0)) ∧
    ((batchDownloadNotes notes limit dl).failedCount = 0 →
      (batchDownloadNotes notes limit dl).success = true) := by
  obtain ⟨h1, h2, h3, h4⟩ := batch_foldl_init dl (if limit > 0 then notes.take limit else notes)
    (if limit > 0 then notes.take limit else notes).length
  obtain ⟨f1, f2, f3, f4, f5⟩ := batchFinal_fields
    ((if limit > 0 then notes.take limit else notes).foldl (batchStep dl)
      ⟨true, (if limit > 0 then notes.take limit else notes).length, 0, 0, [], []⟩)
  have key : batchDownloadNotes notes limit dl =
      (if ((if limit > 0 then notes.take limit else notes).foldl (batchStep dl)
            ⟨true, (if limit > 0 then notes.take limit else notes).length, 0, 0, [], []⟩).failedCount > 0
       then { (if limit > 0 then notes.take limit else notes).foldl (batchStep dl)
                ⟨true, (if limit > 0 then notes.take limit else notes).length, 0, 0, [], []⟩ with
              success := decide (((if limit > 0 then notes.take limit else notes).foldl (batchStep dl)
                ⟨true, (if limit > 0 then notes.take limit else notes).length,
                  0, 0, [], []⟩).downloadedCount > 0) }
       else (if limit > 0 then notes.take limit else notes).foldl (batchStep dl)
              ⟨true, (if limit > 0 then notes.take limit else notes).length, 0, 0, [], []⟩) := rfl
  rw [key, f1, f2, f3, f4, f5]
  refine ⟨h3, h1, h2, ?_, ?_⟩
  · intro hf
    rw [if_pos hf]
  · intro h0
    rw [if_neg (by omega)]
    exact h4

theorem claim_C3_witness :
    ((batchDownloadNotes [⟨"n1", "t1", "u1"⟩, ⟨"n2", "t2", "u2"⟩] 0
        (fun n => if n.noteId = "n1" then .error "boom" else .ok ["f"])).failedCount > 0) ∧
    ((batchDownloadNotes [⟨"n1", "t1", "u1"⟩, ⟨"n2", "t2", "u2"⟩] 0
        (fun n => if n.noteId = "n1" then .error "boom" else .ok ["f"])).success
      = decide ((batchDownloadNotes [⟨"n1", "t1", "u1"⟩, ⟨"n2", "t2", "u2"⟩] 0
        (fun n => if n.noteId = "n1" then .error "boom" else .ok ["f"])).downloadedCount > 0)) :=
  ⟨by decide,
   (claim_C3 [⟨"n1", "t1", "u1"⟩, ⟨"n2", "t2", "u2"⟩] 0
      (fun n => if n.noteId = "n1" then .error "boom" else .ok ["f"])).2.2.2.1 (by decide)⟩

/-- The subset of `NoteDetailResult` that `downloadNote` consumes. -/
structure NoteDetailM where
  noteId : String
  title : String
  nickname : String
  imageUrls : List String
  videoUrl : Option String
deriving Repr

/-- External-world oracle for one `downloadNote` run: the outcome of
`getNoteDetail` (detail extraction, `.error` when it throws), the outcome of
output-directory setup (`mkdirSync`), the per-URL outcome of `downloadFile`
(false when the fetch throws), and the outcome of the
`writeFileSync(metadataPath, ...)` sidecar write — which sits inside the
outer try with no inner catch, so its error also aborts the download. -/
structure DownloadWorld where
  noteDetail : Except String NoteDetailM
  ensureDir : Except String Unit
  fetchOk : String → Bool
  writeMetadata : Except String Unit

/-- Node `path.join` for separator-free components, as used to build the
author directory and file paths. -/
def pathJoin (a b : String) : String := a ++ "/" ++ b

/-- `sanitizeFileName`: replaces characters invalid in file names by an
underscore, then trims. -/
def sanitizeFileName (name : String) : String :=
  jsTrim (String.mk (name.data.map (fun c =>
    if c = '<' ∨ c = '>' ∨ c = ':' ∨ c = '"' ∨ c = '/' ∨ c = '\\' ∨ c = '|' ∨ c = '?' ∨ c = '*'
    then '_' else c)))

/-- `getImageExtension`: picks the extension from format markers in the URL,
defaulting to jpg. -/
def getImageExtension (url : String) : String :=
  let urlLower := url.toLower
  if includes urlLower "format/webp" || includes urlLower ".webp" then "webp"
  else if includes urlLower "format/png" || includes urlLower ".png" then "png"
  else if includes urlLower "format/heic" || includes urlLower ".heic" then "heic"
  else if includes urlLower "format/avif" || includes urlLower ".avif" then "avif"
  else "jpg"

/-- Result of `downloadNote` (success flag, message, written files). -/
structure DownloadNoteResult where
  success : Bool
  message : String
  files : List String
deriving Repr

/-- `downloadNote(url, outputDir)` (download.service.ts lines 171-254): get
the note detail, create the author-scoped directory, fetch each image and the
video — an individual fetch failure is only logged, the file is simply not
recorded — then write the `metadata.json` sidecar (line 242, inside the
outer try with no inner catch: a failed write aborts the download) and record
it last and return success.  Errors thrown by detail extraction, directory
setup or the metadata write are re-raised as a `DownloadError` with a
wrapping message. -/
def downloadNote (w : DownloadWorld) (outputDir : String) : Except String DownloadNoteResult :=
  match w.noteDetail with
  | .error e => .error ("Failed to download note: " ++ e)
  | .ok nd =>
    match w.ensureDir with
    | .error e => .error ("Failed to download note: " ++ e)
    | .ok () =>
      let authorName := if nd.nickname = "" then "unknown" else nd.nickname
      let authorOutputDir := pathJoin outputDir (sanitizeFileName authorName)
      let imageFiles := nd.imageUrls.enum.filterMap (fun p =>
        if w.fetchOk p.2 then
          some (pathJoin authorOutputDir
            ("image_" ++ toString (p.1 + 1) ++ "." ++ getImageExtension p.2))
        else none)
      let videoFiles :=
        match nd.videoUrl with
        | some vu => if w.fetchOk vu then [pathJoin authorOutputDir "video.mp4"] else []
        | none => []
      match w.writeMetadata with
      | .error e => .error ("Failed to download note: " ++ e)
      | .ok () =>
        let downloadedFiles :=
          imageFiles ++ videoFiles ++ [pathJoin authorOutputDir "metadata.json"]
        .ok { success := true,
              message := "Downloaded " ++ toString downloadedFiles.length ++ " files",
              files := downloadedFiles }

theorem batch_foldl_allok (dl : BatchNote → Except String (List String)) :
    ∀ (l : List BatchNote) (acc : BatchDownloadResult),
      (∀ n ∈ l, ∃ v, dl n = .ok v) →
      (l.foldl (batchStep dl) acc).failedCount = acc.failedCount ∧
      (l.foldl (batchStep dl) acc).downloadedCount = acc.downloadedCount + l.length ∧
      (l.foldl (batchStep dl) acc).errors = acc.errors := by
  intro l
  induction l with
  | nil => intro acc _; simp
  | cons n l ih =>
    intro acc hall
    obtain ⟨v, hv⟩ := hall n (by simp)
    have hstep : batchStep dl acc n
        = { acc with files := acc.files ++ v, downloadedCount := acc.downloadedCount + 1 } := by
      rw [batchStep, hv]
    obtain ⟨g1, g2, g3⟩ := ih (batchStep dl acc n) (fun m hm => hall m (by simp [hm]))
    simp only [List.foldl_cons, List.length_cons]
    rw [g1, g2, g3, hstep]
    refine ⟨rfl, ?_, rfl⟩
    show acc.downloadedCount + 1 + l.length = acc.downloadedCount + (l.length + 1)
    omega

theorem downloadNote_ok (w : DownloadWorld) (outputDir : String) (nd : NoteDetailM)
    (h1 : w.noteDetail = .ok nd) (h2 : w.ensureDir = .ok ())
    (h3 : w.writeMetadata = .ok ()) :
    ∃ r, downloadNote w outputDir = .ok r ∧ r.success = true ∧
      r.files.getLast? = some (pathJoin
        (pathJoin outputDir (sanitizeFileName (if nd.nickname = "" then "unknown" else nd.nickname)))
        "metadata.json") := by
  refine ⟨_, by rw [downloadNote, h1, h2, h3], rfl, ?_⟩
  simp [List.getLast?_concat]

/-- C10 (amended): whenever detail extraction, directory setup and the
metadata-sidecar write succeed, `downloadNote` returns success and records
the `metadata.json` sidecar as the last file, for every pattern of per-file
fetch failures (those are only logged); it errors exactly when detail
extraction, directory setup or the metadata write errors; consequently a
batch over notes for which all three succeed has `failedCount = 0` and
counts every note in `downloadedCount`. -/
theorem claim_C10 :
    (∀ (w : DownloadWorld) (outputDir : String) (nd : NoteDetailM),
      w.noteDetail = .ok nd → w.ensureDir = .ok () → w.writeMetadata = .ok () →
      ∃ r, downloadNote w outputDir = .ok r ∧ r.success = true ∧
        r.files.getLast? = some (pathJoin
          (pathJoin outputDir (sanitizeFileName (if nd.nickname = "" then "unknown" else nd.nickname)))
          "metadata.json")) ∧
    (∀ (w : DownloadWorld) (outputDir : String),
      (∃ e, downloadNote w outputDir = .error e) ↔
        ((∃ e, w.noteDetail = .error e) ∨ (∃ e, w.ensureDir = .error e) ∨
          (∃ e, w.writeMetadata = .error e))) ∧
    (∀ (worlds : BatchNote → DownloadWorld) (outputDir : String)
        (notes : List BatchNote) (limit : Nat),
      (∀ n, ∃ nd, (worlds n).noteDetail = .ok nd) →
      (∀ n, (worlds n).ensureDir = .ok ()) →
      (∀ n, (worlds n).writeMetadata = .ok ()) →
      (batchDownloadNotes notes limit
          (fun n => (downloadNote (worlds n) outputDir).map (fun r => r.files))).failedCount = 0 ∧
      (batchDownloadNotes notes limit
          (fun n => (downloadNote (worlds n) outputDir).map (fun r => r.files))).downloadedCount
        = (if limit > 0 then notes.take limit else notes).length) := by
  refine ⟨?_, ?_, ?_⟩
  · exact downloadNote_ok
  · intro w outputDir
    constructor
    · rintro ⟨e, he⟩
      rw [downloadNote] at he
      cases h1 : w.noteDetail with
      | error e1 => exact Or.inl ⟨e1, rfl⟩
      | ok nd =>
        rw [h1] at he
        cases h2 : w.ensureDir with
        | error e2 => exact Or.inr (Or.inl ⟨e2, rfl⟩)
        | ok u =>
          cases u
          rw [h2] at he
          cases h3 : w.writeMetadata with
          | error e3 => exact Or.inr (Or.inr ⟨e3, rfl⟩)
          | ok u2 =>
            cases u2
            rw [h3] at he
            simp at he
    · rintro (⟨e, he⟩ | ⟨e, he⟩ | ⟨e, he⟩)
      · exact ⟨_, by rw [downloadNote, he]⟩
      · cases h1 : w.noteDetail with
        | error e1 => exact ⟨_, by rw [downloadNote, h1]⟩
        | ok nd => exact ⟨_, by rw [downloadNote, h1, he]⟩
      · cases h1 : w.noteDetail with
        | error e1 => exact ⟨_, by rw [downloadNote, h1]⟩
        | ok nd =>
          cases h2 : w.ensureDir with
          | error e2 => exact ⟨_, by rw [downloadNote, h1, h2]⟩
          | ok u =>
            cases u
            exact ⟨_, by rw [downloadNote, h1, h2, he]⟩
  · intro worlds outputDir notes limit hdetail hdir hmeta
    have hall : ∀ n ∈ (if limit > 0 then notes.take limit else notes),
        ∃ v, (fun n => (downloadNote (worlds n) outputDir).map (fun r => r.files)) n = .ok v := by
      intro n _
      obtain ⟨nd, hnd⟩ := hdetail n
      obtain ⟨r, hr, _, _⟩ := downloadNote_ok (worlds n) outputDir nd hnd (hdir n) (hmeta n)
      refine ⟨r.files, ?_⟩
      show (downloadNote (worlds n) outputDir).map (fun r => r.files) = .ok r.files
      rw [hr]
      rfl
    obtain ⟨g1, g2, g3⟩ := batch_foldl_allok
      (fun n => (downloadNote (worlds n) outputDir).map (fun r => r.files))
      (if limit > 0 then notes.take limit else notes)
      ⟨true, (if limit > 0 then notes.take limit else notes).length, 0, 0, [], []⟩ hall
    have g1' : ((if limit > 0 then notes.take limit else notes).foldl
        (batchStep (fun n => (downloadNote (worlds n) outputDir).map (fun r => r.files)))
        ⟨true, (if limit > 0 then notes.take limit else notes).length, 0, 0, [], []⟩).failedCount
          = 0 := g1
    have g2' : ((if limit > 0 then notes.take limit else notes).foldl
        (batchStep (fun n => (downloadNote (worlds n) outputDir).map (fun r => r.files)))
        ⟨true, (if limit > 0 then notes.take limit else notes).length, 0, 0, [], []⟩).downloadedCount
          = 0 + (if limit > 0 then notes.take limit else notes).length := g2
    obtain ⟨f1, f2, f3, f4, f5⟩ := batchFinal_fields
      ((if limit > 0 then notes.take limit else notes).foldl
        (batchStep (fun n => (downloadNote (worlds n) outputDir).map (fun r => r.files)))
        ⟨true, (if limit > 0 then notes.take limit else notes).length, 0, 0, [], []⟩)
    have key : batchDownloadNotes notes limit
        (fun n => (downloadNote (worlds n) outputDir).map (fun r => r.files)) =
        (if ((if limit > 0 then notes.take limit else notes).foldl
              (batchStep (fun n => (downloadNote (worlds n) outputDir).map (fun r => r.files)))
              ⟨true, (if limit > 0 then notes.take limit else notes).length,
                0, 0, [], []⟩).failedCount > 0
         then { (if limit > 0 then notes.take limit else notes).foldl
                  (batchStep (fun n => (downloadNote (worlds n) outputDir).map (fun r => r.files)))
                  ⟨true, (if limit > 0 then notes.take limit else notes).length, 0, 0, [], []⟩ with
                success := decide (((if limit > 0 then notes.take limit else notes).foldl
                  (batchStep (fun n => (downloadNote (worlds n) outputDir).map (fun r => r.files)))
                  ⟨true, (if limit > 0 then notes.take limit else notes).length,
                    0, 0, [], []⟩).downloadedCount > 0) }
         else (if limit > 0 then notes.take limit else notes).foldl
                (batchStep (fun n => (downloadNote (worlds n) outputDir).map (fun r => r.files)))
                ⟨true, (if limit > 0 then notes.take limit else notes).length,
                  0, 0, [], []⟩) := rfl
    rw [key, f2, f3]
    exact ⟨g1', by omega⟩

theorem claim_C10_witness :
    ((⟨.ok ⟨"id1", "t", "alice", ["u1", "u2"], some "v"⟩, .ok (), fun _ => false, .ok ()⟩ :
        DownloadWorld).noteDetail = .ok ⟨"id1", "t", "alice", ["u1", "u2"], some "v"⟩) ∧
    (∃ r, downloadNote ⟨.ok ⟨"id1", "t", "alice", ["u1", "u2"], some "v"⟩, .ok (),
        fun _ => false, .ok ()⟩ "out" = .ok r ∧ r.success = true ∧
      r.files.getLast? = some (pathJoin (pathJoin "out" (sanitizeFileName
        (if ("alice" : String) = "" then "unknown" else "alice"))) "metadata.json")) :=
  ⟨rfl,
   claim_C10.1
     ⟨.ok ⟨"id1", "t", "alice", ["u1", "u2"], some "v"⟩, .ok (), fun _ => false, .ok ()⟩
     "out" ⟨"id1", "t", "alice", ["u1", "u2"], some "v"⟩ rfl rfl rfl⟩

/-- C10 counterexample: with detail extraction and directory setup both
succeeding but the `metadata.json` write throwing, `downloadNote` raises a
`DownloadError` instead of returning success, and a batch over that single
note counts it in `failedCount` — a third fatal error source beyond detail
extraction and directory setup. -/
theorem claim_C10_counterexample :
    ((⟨.ok ⟨"id1", "t", "alice", ["u1"], none⟩, .ok (), fun _ => true, .error "disk full"⟩ :
        DownloadWorld).noteDetail = .ok ⟨"id1", "t", "alice", ["u1"], none⟩) ∧
    ((⟨.ok ⟨"id1", "t", "alice", ["u1"], none⟩, .ok (), fun _ => true, .error "disk full"⟩ :
        DownloadWorld).ensureDir = .ok ()) ∧
    downloadNote ⟨.ok ⟨"id1", "t", "alice", ["u1"], none⟩, .ok (), fun _ => true,
        .error "disk full"⟩ "out" = .error "Failed to download note: disk full" ∧
    (batchDownloadNotes [⟨"id1", "t", "u"⟩] 0
        (fun _ => (downloadNote ⟨.ok ⟨"id1", "t", "alice", ["u1"], none⟩, .ok (),
          fun _ => true, .error "disk full"⟩ "out").map (fun r => r.files))).failedCount
      = 1 := by
  refine ⟨rfl, rfl, rfl, rfl⟩

/-! ## Note-id extraction after publish (publish.service.ts lines 1258-1345) -/

/-- Character class `[a-f0-9]` under the `/i` flag. -/
def isHexNoteChar (c : Char) : Bool :=
  ('a' ≤ c.toLower && c.toLower ≤ 'f') || c.isDigit

/-- First match of a case-insensitive regex `marker([a-f0-9]+)`: scan for the
first position where the (lower-case) marker occurs followed by at least one
hex character, and return the greedy hex run (the capture group). -/
def scanHexAfter (marker : List Char) : List Char → Option (List Char)
  | [] => none
  | c :: cs =>
    if ((c :: cs).take marker.length).map Char.toLower = marker ∧
        ((c :: cs).drop marker.length).takeWhile isHexNoteChar ≠ [] then
      some (((c :: cs).drop marker.length).takeWhile isHexNoteChar)
    else scanHexAfter marker cs

/-- Method 1 of `extractNoteIdFromPage`: match the post-redirect URL against
`/\/explore\/([a-f0-9]+)/i` and then `/\/discovery\/([a-f0-9]+)/i`. -/
def extractNoteIdFromUrl (url : String) : Option String :=
  match scanHexAfter "/explore/".data url.data with
  | some run => some (String.mk run)
  | none =>
    match scanHexAfter "/discovery/".data url.data with
    | some run => some (String.mk run)
    | none => none

/-- Observations available to `extractNoteIdFromPage` after a publish has
been judged successful: the current page URL, the result of the in-page
data-attribute / note-link / hex-text scan (method 2, `none` when the
evaluated script finds nothing or throws), and the result of the fresh
`NoteService.getUserNotes(1)` listing fetch (method 3, `none` when it fails
or returns no note — its try/catch turns every failure into `null`). -/
structure PostPublishPage where
  url : String
  domNoteId : Option String
  latestNoteId : Option String
deriving DecidableEq, Repr

/-- `extractNoteIdFromPage`: try the URL pattern match, then the DOM scan,
then the listing fetch; every failure path returns `null`, never throws. -/
def extractNoteIdFromPage (p : PostPublishPage) : Option String :=
  match extractNoteIdFromUrl p.url with
  | some i => some i
  | none =>
    match p.domNoteId with
    | some i => some i
    | none => p.latestNoteId

/-- The `PublishResult` record of `shared/types.ts`. -/
structure PublishResultM where
  success : Bool
  message : String
  title : String
  content : String
  imageCount : Nat
  tags : String
  url : String
  noteId : Option String
deriving DecidableEq, Repr

/-- The success result assembled by `publishNote` (publish.service.ts lines
270-279) after the completion wait returns: `noteId || undefined` becomes the
extracted option. -/
def publishSuccessResult (title content : String) (imageCount : Nat) (tags url : String)
    (noteId : Option String) : PublishResultM :=
  { success := true, message := "Note published successfully", title := title,
    content := content, imageCount := imageCount, tags := tags, url := url, noteId := noteId }

/-- C4: the three note-id extractors are tried in order (URL pattern, DOM
scan, fresh listing fetch) and the first hit wins; when all three yield
nothing the extraction returns `none` and the publish still assembles a
success result with `noteId = none` — extraction failure is never an error. -/
theorem claim_C4 : ∀ p : PostPublishPage,
    (∀ i, extractNoteIdFromUrl p.url = some i → extractNoteIdFromPage p = some i) ∧
    (extractNoteIdFromUrl p.url = none → ∀ i, p.domNoteId = some i →
      extractNoteIdFromPage p = some i) ∧
    (extractNoteIdFromUrl p.url = none → p.domNoteId = none →
      extractNoteIdFromPage p = p.latestNoteId) ∧
    (∀ (title content : String) (imageCount : Nat) (tags url : String),
      (publishSuccessResult title content imageCount tags url (extractNoteIdFromPage p)).success
          = true ∧
      (publishSuccessResult title content imageCount tags url (extractNoteIdFromPage p)).noteId
          = extractNoteIdFromPage p) := by
  intro p
  refine ⟨?_, ?_, ?_, ?_⟩
  · intro i h; rw [extractNoteIdFromPage, h]
  · intro h i h2; rw [extractNoteIdFromPage, h, h2]
  · intro h h2; rw [extractNoteIdFromPage, h, h2]
  · intro title content imageCount tags url
    exact ⟨rfl, rfl⟩

theorem claim_C4_witness :
    (extractNoteIdFromUrl "https://creator.xiaohongshu.com/publish/publish" = none) ∧
    (some "abc123def456abc123def" = some "abc123def456abc123def") ∧
    extractNoteIdFromPage ⟨"https://creator.xiaohongshu.com/publish/publish",
        some "abc123def456abc123def", none⟩ = some "abc123def456abc123def" :=
  ⟨by decide, rfl,
   (claim_C4 ⟨"https://creator.xiaohongshu.com/publish/publish",
      some "abc123def456abc123def", none⟩).2.1 (by decide) "abc123def456abc123def" rfl⟩

/-! ## Input validation for publishing (publish.service.ts) -/

/-- The content type handled by `publishContent`. -/
inductive MediaType where
  | image
  | video
deriving DecidableEq, Repr

/-- Prefix used in the validation error messages. -/
def mediaTypeLabel : MediaType → String
  | .image => "Image"
  | .video => "Video"

/-- `validateContentInputs(type, title, content, mediaPaths)` (lines
1495-1520): empty (trimmed) title, empty content, empty media list, more
than 18 paths for an image post, and a path count other than one for a video
post each raise a `PublishError`. -/
def validateContentInputs (t : MediaType) (title content : String)
    (mediaPaths : List String) : Except PublishErrorE Unit :=
  if jsTrim title = "" then .error ⟨mediaTypeLabel t ++ " title cannot be empty"⟩
  else if jsTrim content = "" then .error ⟨mediaTypeLabel t ++ " content cannot be empty"⟩
  else if mediaPaths.isEmpty then .error ⟨mediaTypeLabel t ++ " paths are required"⟩
  else if t = .image ∧ mediaPaths.length > 18 then
    .error ⟨"Maximum 18 images allowed for image posts"⟩
  else if t = .video ∧ mediaPaths.length ≠ 1 then
    .error ⟨"Video publishing requires exactly one video file"⟩
  else .ok ()

/-- A browser interaction performed by the image or video workflow. -/
inductive BrowserEvent where
  | createPage
  | navigate (url : String)
  | other (tag : String)
deriving DecidableEq, Repr

/-- Oracle for the two workflow methods called by `publishContent` after
validation passes: each is summarised by its outcome and the trace of browser
events it performs (both `publishNote` and `publishVideo` begin by creating a
page and navigating). -/
structure PublishWorkflows where
  runPublishNote : Except PublishErrorE PublishResultM × List BrowserEvent
  runPublishVideo : Except PublishErrorE PublishResultM × List BrowserEvent

/-- `publishContent` (lines 1434-1452): validate first; only afterwards
dispatch to the image workflow or (with the first media path) the video
workflow.  The result is paired with the trace of browser events performed. -/
def publishContent (t : MediaType) (title content : String) (mediaPaths : List String)
    (w : PublishWorkflows) : Except PublishErrorE PublishResultM × List BrowserEvent :=
  match validateContentInputs t title content mediaPaths with
  | .error e => (.error e, [])
  | .ok () =>
    match t with
    | .image => w.runPublishNote
    | .video => w.runPublishVideo

/-- C5: every input-shape violation (empty trimmed title, empty content,
empty media list, more than 18 media paths for an image post, a count other
than one for a video post) makes `publishContent` raise a `PublishError`
before any browser event happens, whatever the workflows would do — the
error is returned directly and nothing is retried. -/
theorem claim_C5 : ∀ (t : MediaType) (title content : String) (mediaPaths : List String)
    (w : PublishWorkflows),
    (jsTrim title = "" ∨ jsTrim content = "" ∨ mediaPaths = [] ∨
      (t = .image ∧ mediaPaths.length > 18) ∨ (t = .video ∧ mediaPaths.length ≠ 1)) →
    ∃ e, validateContentInputs t title content mediaPaths = .error e ∧
      publishContent t title content mediaPaths w = (.error e, []) := by
  intro t title content mediaPaths w h
  have hval : ∃ e, validateContentInputs t title content mediaPaths = .error e := by
    rw [validateContentInputs]
    split
    · exact ⟨_, rfl⟩
    split
    · exact ⟨_, rfl⟩
    split
    · exact ⟨_, rfl⟩
    split
    · exact ⟨_, rfl⟩
    split
    · exact ⟨_, rfl⟩
    rename_i h1 h2 h3 h4 h5
    exfalso
    rcases h with h | h | h | h | h
    · exact h1 h
    · exact h2 h
    · exact h3 (by simp [h])
    · exact h4 h
    · exact h5 h
  obtain ⟨e, he⟩ := hval
  exact ⟨e, he, by simp only [publishContent, he]⟩

theorem claim_C5_witness :
    (jsTrim "" = "" ∨ jsTrim "World" = "" ∨ (["a.jpg"] : List String) = [] ∨
      (MediaType.image = .image ∧ (["a.jpg"] : List String).length > 18) ∨
      (MediaType.image = .video ∧ (["a.jpg"] : List String).length ≠ 1)) ∧
    ∃ e, validateContentInputs .image "" "World" ["a.jpg"] = .error e ∧
      publishContent .image "" "World" ["a.jpg"] ⟨(.ok (publishSuccessResult "" "" 0 "" "" none),
        [.createPage]), (.ok (publishSuccessResult "" "" 0 "" "" none), [.createPage])⟩
        = (.error e, []) :=
  ⟨Or.inl (by decide),
   claim_C5 .image "" "World" ["a.jpg"]
     ⟨(.ok (publishSuccessResult "" "" 0 "" "" none), [.createPage]),
      (.ok (publishSuccessResult "" "" 0 "" "" none), [.createPage])⟩ (Or.inl (by decide))⟩

/-! ## Title display-width validation (title validator) -/

/-- Modelled from the spec: `src/shared/title-validator.ts` (the module
providing `getTitleWidth` and `assertTitleWidthValid`) is not among the
provided sources; the spec says the validator "treats wide/CJK characters as
width 2, others as width 1".  Wide/CJK characters are taken to be the common
East-Asian wide Unicode blocks (CJK ideographs, kana, hangul, fullwidth
forms). -/
def isWideChar (c : Char) : Bool :=
  (0x1100 ≤ c.toNat && c.toNat ≤ 0x115F) ||
  (0x2E80 ≤ c.toNat && c.toNat ≤ 0x303E) ||
  (0x3041 ≤ c.toNat && c.toNat ≤ 0x33FF) ||
  (0x3400 ≤ c.toNat && c.toNat ≤ 0x4DBF) ||
  (0x4E00 ≤ c.toNat && c.toNat ≤ 0x9FFF) ||
  (0xA000 ≤ c.toNat && c.toNat ≤ 0xA4CF) ||
  (0xAC00 ≤ c.toNat && c.toNat ≤ 0xD7A3) ||
  (0xF900 ≤ c.toNat && c.toNat ≤ 0xFAFF) ||
  (0xFE30 ≤ c.toNat && c.toNat ≤ 0xFE4F) ||
  (0xFF00 ≤ c.toNat && c.toNat ≤ 0xFF60) ||
  (0xFFE0 ≤ c.toNat && c.toNat ≤ 0xFFE6)

/-- Modelled from the spec: display width of one character — 2 for wide/CJK,
1 otherwise. -/
def charWidth (c : Char) : Nat := if isWideChar c then 2 else 1

/-- Modelled from the spec: `getTitleWidth` sums the per-character display
widths. -/
def getTitleWidth (s : String) : Nat := (s.data.map charWidth).sum

/-- Modelled from the spec: `assertTitleWidthValid` accepts exactly when the
computed display width does not exceed the configured maximum. -/
def isTitleWidthValid (s : String) (maxWidth : Nat) : Bool :=
  getTitleWidth s ≤ maxWidth

theorem sum_charWidth (l : List Char) :
    (l.map charWidth).sum = 2 * l.countP isWideChar + l.countP (fun c => !isWideChar c) := by
  induction l with
  | nil => simp
  | cons c l ih =>
    by_cases h : isWideChar c <;> simp [charWidth, List.countP_cons, h, ih] <;> ring

/-- C6 (amended): title validation accepts exactly when the computed display
width — each wide/CJK character counting 2 units and every other character 1
unit, independent of the raw character count — is at most the configured
maximum; the title "测试123" (2 CJK characters and 3 ASCII digits) computes
to 7 units, not the 11 the spec states. -/
theorem claim_C6 :
    (∀ (s : String) (maxWidth : Nat),
      isTitleWidthValid s maxWidth = true ↔
        2 * s.data.countP isWideChar + s.data.countP (fun c => !isWideChar c) ≤ maxWidth) ∧
    getTitleWidth "测试123" = 7 ∧
    charWidth '测' = 2 ∧ charWidth '试' = 2 ∧ charWidth '1' = 1 := by
  refine ⟨?_, by decide, by decide, by decide, by decide⟩
  intro s maxWidth
  simp [isTitleWidthValid, getTitleWidth, sum_charWidth]

theorem claim_C6_witness :
    isTitleWidthValid "测试123" 20 = true ∧
    2 * ("测试123" : String).data.countP isWideChar
      + ("测试123" : String).data.countP (fun c => !isWideChar c) ≤ 20 :=
  ⟨(claim_C6.1 "测试123" 20).mpr (by decide), by decide⟩

/-- C6 counterexample: the computed display width of "测试123" is 7 (the
string has two CJK characters, not four), so it is not 11 as the claim
states. -/
theorem claim_C6_counterexample :
    getTitleWidth "测试123" = 7 ∧ getTitleWidth "测试123" ≠ 11 := by
  decide

/-! ## Delete-note invocation surfaces (tool.handlers.ts and the CLI) -/

/-- Oracle for the note-service delete calls made by the MCP handler: the
outcome (thrown error message or success payload) of
`deleteLastPublishedNote` and of `deleteNote(noteId)`. -/
structure DeleteOracle where
  deleteLastResult : Except String String
  deleteByIdResult : String → Except String String

/-- `handleDeleteNote(noteId, lastPublished)` (tool.handlers.ts lines
198-212): dispatch on `last_published`, then on a truthy `note_id` (the empty
string is falsy in JS), otherwise throw. -/
def handleDeleteNote (o : DeleteOracle) (noteId : Option String) (lastPublished : Bool) :
    Except String String :=
  if lastPublished then o.deleteLastResult
  else
    match noteId with
    | some nid =>
      if nid = "" then .error "Either note_id or last_published must be specified"
      else o.deleteByIdResult nid
    | none => .error "Either note_id or last_published must be specified"

/-- Observable outcome of the CLI `usernote delete` action: either a JSON
result written with an exit code, or the plain usage help text with an exit
code. -/
inductive CliDeleteOutcome where
  | jsonOut (success : Bool) (exitCode : Nat)
  | helpOut (exitCode : Nat)
deriving DecidableEq, Repr

/-- Oracle for the note-service calls made by the CLI action (success flag
of the returned result, or the thrown error). -/
structure CliDeleteOracle where
  deleteLastResult : Except String Bool
  deleteByIdResult : String → Except String Bool

/-- The CLI `usernote delete` action: on `--last-published` or a truthy
`--note-id` it calls the service and writes the JSON result with exit code 0
(`printError` writes a failure JSON with exit code 1 when the call throws);
with neither option it prints the usage help and calls `process.exit(0)`. -/
def usernoteDeleteAction (o : CliDeleteOracle) (noteId : Option String) (lastPublished : Bool) :
    CliDeleteOutcome :=
  if lastPublished then
    match o.deleteLastResult with
    | .ok s => .jsonOut s 0
    | .error _ => .jsonOut false 1
  else
    match noteId with
    | some nid =>
      if nid = "" then .helpOut 0
      else
        match o.deleteByIdResult nid with
        | .ok s => .jsonOut s 0
        | .error _ => .jsonOut false 1
    | none => .helpOut 0

/-- C7 (amended): with neither an explicit note id nor the last-published
flag, the MCP tool handler fails with the domain error "Either note_id or
last_published must be specified" and calls no delete operation, while the
CLI `usernote delete` action prints the usage help and exits with status 0
(it also deletes nothing). -/
theorem claim_C7 : ∀ (o : DeleteOracle) (c : CliDeleteOracle),
    handleDeleteNote o none false
        = .error "Either note_id or last_published must be specified" ∧
    usernoteDeleteAction c none false = .helpOut 0 := by
  intro o c
  exact ⟨rfl, rfl⟩

/-- C7 counterexample: on the CLI surface an invocation with neither option
produces the help text with exit status 0 — a success exit, not a structured
failure with a non-zero signal. -/
theorem claim_C7_counterexample :
    usernoteDeleteAction ⟨.ok true, fun _ => .ok true⟩ none false = .helpOut 0 ∧
    CliDeleteOutcome.helpOut 0 ≠ .jsonOut false 1 := by
  exact ⟨rfl, by decide⟩

/-! ## CDN image URL rewriting (download.service.ts lines 449-478) -/

/-- JS `String.prototype.split` with a one-character separator, on character
lists (`"a//b".split("/") = ["a", "", "b"]`, `"".split("/") = [""]`). -/
def jsSplitOnChar (sep : Char) : List Char → List (List Char)
  | [] => [[]]
  | c :: cs =>
    if c = sep then [] :: jsSplitOnChar sep cs
    else
      match jsSplitOnChar sep cs with
      | [] => [[c]]
      | g :: gs => (c :: g) :: gs

/-- The literal `/notes_pre_post/` of the rewrite regex. -/
def notesPrePostMarker : List Char := "/notes_pre_post/".data

/-- First match of the regex `/(\/notes_pre_post\/[^!]+)/`: scan left to
right for a position where the marker occurs followed by at least one
character other than '!', and return the capture — the marker together with
the greedy run of characters up to the next '!' (or the end). -/
def scanNotesPrePost : List Char → Option (List Char)
  | [] => none
  | c :: cs =>
    if ((c :: cs).take notesPrePostMarker.length = notesPrePostMarker ∧
        ((c :: cs).drop notesPrePostMarker.length).takeWhile (· != '!') ≠ []) then
      some (notesPrePostMarker ++ ((c :: cs).drop notesPrePostMarker.length).takeWhile (· != '!'))
    else scanNotesPrePost cs

/-- `formatImageUrl(url)`: the empty URL maps to itself; a URL containing
"xhscdn.com" is rewritten to the stable host using the regex match, else
using a backwards scan of its '/'-separated parts for one containing
"notes_pre_post" (the part truncated at its first '!'); otherwise — also
for URLs containing "ci.xiaohongshu.com", which the source returns as-is —
the URL is returned unchanged. -/
def formatImageUrl (url : String) : String :=
  if url = "" then ""
  else
    match
      (if includes url "xhscdn.com" then
        match scanNotesPrePost url.data with
        | some seg => some ("https://sns-img-bd.xhscdn.com" ++ String.mk seg)
        | none =>
          match (jsSplitOnChar '/' url.data).reverse.find?
              (fun p => includes (String.mk p) "notes_pre_post") with
          | some part =>
            some ("https://sns-img-bd.xhscdn.com/" ++ String.mk (part.takeWhile (· != '!')))
          | none => none
      else none)
    with
    | some r => r
    | none =>
      if includes url "ci.xiaohongshu.com" then url else url

theorem head_dropWhile_bang : ∀ (l : List Char) (c : Char),
    (l.dropWhile (· != '!')).head? = some c → c = '!' := by
  intro l
  induction l with
  | nil => intro c h; simp at h
  | cons a l ih =>
    intro c h
    by_cases hp : (a != '!') = true
    · rw [List.dropWhile_cons_of_pos (p := fun x => x != '!') hp] at h
      exact ih c h
    · rw [List.dropWhile_cons_of_neg (p := fun x => x != '!') hp] at h
      have hac : a = c := by simpa using h
      have ha : a = '!' := by simpa using hp
      rw [← hac, ha]

theorem scanNotesPrePost_sound : ∀ (cs seg : List Char), scanNotesPrePost cs = some seg →
    ∃ pre run rest, cs = pre ++ notesPrePostMarker ++ run ++ rest ∧
      seg = notesPrePostMarker ++ run ∧ run ≠ [] ∧
      (∀ c ∈ run, c ≠ '!') ∧ (∀ c, rest.head? = some c → c = '!') := by
  intro cs
  induction cs with
  | nil => intro seg h; simp [scanNotesPrePost] at h
  | cons c cs ih =>
    intro seg h
    rw [scanNotesPrePost] at h
    split at h
    · rename_i hcond
      obtain ⟨htake, hrun⟩ := hcond
      have hseg : seg = notesPrePostMarker
          ++ ((c :: cs).drop notesPrePostMarker.length).takeWhile (· != '!') := by
        injection h with h'
        exact h'.symm
      refine ⟨[], ((c :: cs).drop notesPrePostMarker.length).takeWhile (· != '!'),
        ((c :: cs).drop notesPrePostMarker.length).dropWhile (· != '!'), ?_, hseg, hrun, ?_, ?_⟩
      · rw [List.nil_append, List.append_assoc, List.takeWhile_append_dropWhile]
        nth_rewrite 1 [← htake]
        rw [List.take_append_drop]
      · intro x hx
        have := List.mem_takeWhile_imp hx
        simpa using this
      · intro x hx
        exact head_dropWhile_bang _ x hx
    · obtain ⟨pre, run, rest, h1, h2, h3, h4, h5⟩ := ih seg h
      exact ⟨c :: pre, run, rest, by simp [h1], h2, h3, h4, h5⟩

theorem scanNotesPrePost_pos (l : List Char) (hne : l ≠ [])
    (htake : l.take notesPrePostMarker.length = notesPrePostMarker)
    (hrun : (l.drop notesPrePostMarker.length).takeWhile (· != '!') ≠ []) :
    scanNotesPrePost l = some (notesPrePostMarker
      ++ (l.drop notesPrePostMarker.length).takeWhile (· != '!')) := by
  cases l with
  | nil => exact absurd rfl hne
  | cons c cs =>
    rw [scanNotesPrePost, if_pos ⟨htake, hrun⟩]

theorem scanNotesPrePost_occurs : ∀ (pre : List Char) (c0 : Char) (tail : List Char),
    c0 ≠ '!' → ∃ seg, scanNotesPrePost (pre ++ notesPrePostMarker ++ c0 :: tail) = some seg := by
  intro pre
  induction pre with
  | nil =>
    intro c0 tail hc0
    have hp : (c0 != '!') = true := by simpa using hc0
    refine ⟨_, scanNotesPrePost_pos _ ?_ ?_ ?_⟩
    · simp [notesPrePostMarker]
    · rw [List.nil_append]
      exact List.take_left _ _
    · rw [List.nil_append, List.drop_left, List.takeWhile_cons, if_pos hp]
      simp
  | cons a pre ih =>
    intro c0 tail hc0
    have hl : (a :: pre) ++ notesPrePostMarker ++ c0 :: tail
        = a :: (pre ++ notesPrePostMarker ++ c0 :: tail) := by simp
    rw [hl, scanNotesPrePost]
    split
    · exact ⟨_, rfl⟩
    · exact ih c0 tail hc0

/-- C8 (amended): the empty URL maps to the empty string; a URL containing
"xhscdn.com" with an occurrence of "/notes_pre_post/" followed by at least
one non-'!' character is rewritten to "https://sns-img-bd.xhscdn.com"
followed by such a segment truncated before its first '!' (the xhscdn rule
takes precedence over the "ci.xiaohongshu.com leave unchanged" rule); a URL
not containing "xhscdn.com" — whether or not it contains
"ci.xiaohongshu.com" — is returned unchanged. -/
theorem claim_C8 :
    (formatImageUrl "" = "") ∧
    (∀ (url : String) (pre tail : List Char) (c0 : Char),
      includes url "xhscdn.com" = true →
      url.data = pre ++ notesPrePostMarker ++ c0 :: tail → c0 ≠ '!' →
      ∃ pre2 run rest, url.data = pre2 ++ notesPrePostMarker ++ run ++ rest ∧
        run ≠ [] ∧ (∀ c ∈ run, c ≠ '!') ∧ (∀ c, rest.head? = some c → c = '!') ∧
        formatImageUrl url
          = "https://sns-img-bd.xhscdn.com" ++ String.mk (notesPrePostMarker ++ run)) ∧
    (∀ url : String, includes url "xhscdn.com" = false → formatImageUrl url = url) := by
  refine ⟨by rw [formatImageUrl, if_pos rfl], ?_, ?_⟩
  · intro url pre tail c0 hinc hdata hc0
    obtain ⟨seg, hseg⟩ := scanNotesPrePost_occurs pre c0 tail hc0
    rw [← hdata] at hseg
    obtain ⟨pre2, run, rest, h1, h2, h3, h4, h5⟩ := scanNotesPrePost_sound url.data seg hseg
    refine ⟨pre2, run, rest, h1, h3, h4, h5, ?_⟩
    have hne : url ≠ "" := by
      intro h0
      rw [h0] at hdata
      have hd : ([] : List Char) = pre ++ notesPrePostMarker ++ c0 :: tail := hdata
      simp [notesPrePostMarker] at hd
    rw [formatImageUrl, if_neg hne, if_pos hinc]
    simp only [hseg]
    rw [h2]
  · intro url h
    by_cases h0 : url = ""
    · rw [h0, formatImageUrl, if_pos rfl]
    · rw [formatImageUrl, if_neg h0, if_neg (by simp [h])]
      simp

theorem claim_C8_witness :
    (includes "http://xhscdn.com/notes_pre_post/ab!c" "xhscdn.com" = true) ∧
    (("http://xhscdn.com/notes_pre_post/ab!c" : String).data
      = ("http://xhscdn.com" : String).data ++ notesPrePostMarker ++ 'a' :: ("b!c" : String).data) ∧
    ('a' : Char) ≠ '!' ∧
    (∃ pre2 run rest, ("http://xhscdn.com/notes_pre_post/ab!c" : String).data
        = pre2 ++ notesPrePostMarker ++ run ++ rest ∧
      run ≠ [] ∧ (∀ c ∈ run, c ≠ '!') ∧ (∀ c, rest.head? = some c → c = '!') ∧
      formatImageUrl "http://xhscdn.com/notes_pre_post/ab!c"
        = "https://sns-img-bd.xhscdn.com" ++ String.mk (notesPrePostMarker ++ run)) :=
  ⟨by decide, by decide, by decide,
   claim_C8.2.1 "http://xhscdn.com/notes_pre_post/ab!c" ("http://xhscdn.com" : String).data
     ("b!c" : String).data 'a' (by decide) (by decide) (by decide)⟩

/-- C8 counterexample: this URL contains "ci.xiaohongshu.com" yet is not
returned unchanged — the "xhscdn.com" rewrite fires first. -/
theorem claim_C8_counterexample :
    includes "http://xhscdn.com/notes_pre_post/abc!x-ci.xiaohongshu.com"
      "ci.xiaohongshu.com" = true ∧
    formatImageUrl "http://xhscdn.com/notes_pre_post/abc!x-ci.xiaohongshu.com"
      = "https://sns-img-bd.xhscdn.com/notes_pre_post/abc" ∧
    formatImageUrl "http://xhscdn.com/notes_pre_post/abc!x-ci.xiaohongshu.com"
      ≠ "http://xhscdn.com/notes_pre_post/abc!x-ci.xiaohongshu.com" := by
  refine ⟨by decide, by decide, by decide⟩

/-! ## Video path resolution (publish.service.ts lines 1603-1634 and 296-303) -/

/-- JS `String.prototype.toLowerCase` restricted to ASCII letters (the only
characters relevant to extension matching). -/
def jsToLower (s : String) : String := String.mk (s.data.map Char.toLower)

/-- JS `String.prototype.startsWith`. -/
def jsStartsWith (s pat : String) : Bool :=
  decide (List.IsPrefix pat.data s.data)

/-- File-system oracle for `existsSync` / `statSync().isFile()` /
`statSync().size` (in bytes). -/
structure FsOracle where
  fileExists : String → Bool
  isFile : String → Bool
  sizeBytes : String → Nat

/-- `path.toLowerCase().split(".").pop()`: the component after the last dot
(the whole string when there is no dot, so the lower-casing is applied by the
caller). -/
def lastDotComponent (s : String) : String :=
  match (jsSplitOnChar '.' s.data).reverse with
  | [] => s
  | p :: _ => String.mk p

/-- The allowed video extensions of `validateAndResolveVideoPath`. -/
def allowedVideoExtensions : List String := ["mp4", "mov", "avi", "mkv", "webm", "flv", "wmv"]

/-- `validateAndResolveVideoPath(videoPath)` (lines 1603-1634): the path is
unconditionally resolved as `join(process.cwd(), videoPath)` — `join` is the
Node `path.join`, passed here as an oracle along with the cwd — then checked
for existence, regular-file-ness, allowed extension (computed from the
supplied path) and size (at most 500 MB: the source compares
`size / (1024*1024) > 500`, exact because the divisor is a power of two). -/
def validateAndResolveVideoPath (join : String → String → String) (cwd : String)
    (fs : FsOracle) (videoPath : String) : Except PublishErrorE String :=
  if fs.fileExists (join cwd videoPath) = false then
    .error ⟨"Video file not found: " ++ videoPath⟩
  else if fs.isFile (join cwd videoPath) = false then
    .error ⟨"Path is not a file: " ++ videoPath⟩
  else if lastDotComponent (jsToLower videoPath) = "" ∨
      ¬ (allowedVideoExtensions.contains (lastDotComponent (jsToLower videoPath)) = true) then
    .error ⟨"Unsupported video format: " ++ videoPath
      ++ ". Supported: mp4, mov, avi, mkv, webm, flv, wmv"⟩
  else if 500 * 1024 * 1024 < fs.sizeBytes (join cwd videoPath) then
    .error ⟨"Video file too large: exceeds the maximum allowed 500MB"⟩
  else .ok (join cwd videoPath)

/-- Regex `/^[a-zA-Z]:/` used by the image-path branch. -/
def startsWithDriveLetter (s : String) : Bool :=
  match s.data with
  | c :: d :: _ => c.isAlpha && (d == ':')
  | _ => false

/-- The image-path resolution of `validateAndResolveImagePaths` (lines
296-303): an already absolute path (leading '/' or a drive letter) is used
as-is, every other path is joined onto the cwd. -/
def resolveImageFullPath (join : String → String → String) (cwd : String) (p : String) : String :=
  if jsStartsWith p "/" || startsWithDriveLetter p then p else join cwd p

/-- C9: the video path is always resolved as `join cwd videoPath`, even for
an absolute path — unlike image paths, which are used as-is when absolute —
and the path is accepted exactly when the cwd-joined path exists, is a
regular file, the supplied path has an allowed video extension, and the file
is at most 500 MB (524288000 bytes). -/
theorem claim_C9 : ∀ (join : String → String → String) (cwd : String) (fs : FsOracle)
    (p : String),
    (∀ r, validateAndResolveVideoPath join cwd fs p = .ok r → r = join cwd p) ∧
    ((∃ r, validateAndResolveVideoPath join cwd fs p = .ok r) ↔
      (fs.fileExists (join cwd p) = true ∧ fs.isFile (join cwd p) = true ∧
        allowedVideoExtensions.contains (lastDotComponent (jsToLower p)) = true ∧
        fs.sizeBytes (join cwd p) ≤ 500 * 1024 * 1024)) ∧
    (jsStartsWith p "/" = true → resolveImageFullPath join cwd p = p) ∧
    (jsStartsWith p "/" = false → startsWithDriveLetter p = false →
      resolveImageFullPath join cwd p = join cwd p) := by
  intro join cwd fs p
  refine ⟨?_, ⟨?_, ?_⟩, ?_, ?_⟩
  · intro r h
    rw [validateAndResolveVideoPath] at h
    split at h
    · exact absurd h (by simp)
    split at h
    · exact absurd h (by simp)
    split at h
    · exact absurd h (by simp)
    split at h
    · exact absurd h (by simp)
    injection h with h'
    exact h'.symm
  · rintro ⟨r, h⟩
    rw [validateAndResolveVideoPath] at h
    by_cases c1 : fs.fileExists (join cwd p) = false
    · rw [if_pos c1] at h; exact absurd h (by simp)
    rw [if_neg c1] at h
    by_cases c2 : fs.isFile (join cwd p) = false
    · rw [if_pos c2] at h; exact absurd h (by simp)
    rw [if_neg c2] at h
    by_cases c3 : lastDotComponent (jsToLower p) = "" ∨
        ¬ (allowedVideoExtensions.contains (lastDotComponent (jsToLower p)) = true)
    · rw [if_pos c3] at h; exact absurd h (by simp)
    rw [if_neg c3] at h
    by_cases c4 : 500 * 1024 * 1024 < fs.sizeBytes (join cwd p)
    · rw [if_pos c4] at h; exact absurd h (by simp)
    push_neg at c3
    exact ⟨by simpa using c1, by simpa using c2, c3.2, by omega⟩
  · rintro ⟨h1, h2, h3, h4⟩
    have hext : ¬ (lastDotComponent (jsToLower p) = "" ∨
        ¬ (allowedVideoExtensions.contains (lastDotComponent (jsToLower p)) = true)) := by
      push_neg
      refine ⟨?_, h3⟩
      intro hz
      rw [hz] at h3
      exact absurd h3 (by decide)
    refine ⟨join cwd p, ?_⟩
    rw [validateAndResolveVideoPath, if_neg (by simp [h1]), if_neg (by simp [h2]),
      if_neg hext, if_neg (by omega)]
  · intro h
    rw [resolveImageFullPath, if_pos (by simp [h])]
  · intro h1 h2
    rw [resolveImageFullPath, if_neg (by simp [h1, h2])]

theorem claim_C9_witness :
    (jsStartsWith "/videos/a.mp4" "/" = true) ∧
    resolveImageFullPath pathJoin "/cwd" "/videos/a.mp4" = "/videos/a.mp4" ∧
    ((⟨fun _ => true, fun _ => true, fun _ => 0⟩ : FsOracle).fileExists
        (pathJoin "/cwd" "/videos/a.mp4") = true) ∧
    (∃ r, validateAndResolveVideoPath pathJoin "/cwd"
        ⟨fun _ => true, fun _ => true, fun _ => 0⟩ "/videos/a.mp4" = .ok r) :=
  ⟨by decide,
   (claim_C9 pathJoin "/cwd" ⟨fun _ => true, fun _ => true, fun _ => 0⟩ "/videos/a.mp4").2.2.1
     (by decide),
   rfl,
   (claim_C9 pathJoin "/cwd" ⟨fun _ => true, fun _ => true, fun _ => 0⟩ "/videos/a.mp4").2.1.mpr
     ⟨rfl, rfl, by decide, by decide⟩⟩

end XhsMcp
